import Mathlib

/-!
Verification of the shortsGenerator pipeline against its specification.

The definitions below are shallow embeddings of the Python sources:
`audio_service.py` (caption cue generation and SRT serialization),
`video_service.py` (render-stage claim query, Ken Burns frame count and
zoom expressions, failure handling), `image_service.py` (atomic image
commit), `news_service.py` (discovery insertion and batch commit),
`api.py` (manual job ingestion) and `models.py` (the VideoJob row with a
unique `news_url` column).  Machine-level details that the claims do not
touch (logging, the actual ffmpeg/Polly/Gemini calls) are abstracted as
parameters; everything the claims quantify over is translated faithfully.
-/

namespace ShortsGenerator

/-- A word speech mark from Polly: a millisecond offset from the start of
the narration and the literal word text.  Mirrors the parsed entries of
`speech_marks_data` with `type == 'word'` in `audio_service.generate_srt`. -/
structure WordEvent where
  time : Nat
  value : String
deriving Repr, DecidableEq

/-- One caption cue: start and end offsets in milliseconds plus display
text.  `stop` stands for the Python loop variable `end_ms` (`end` is a
keyword in Lean). -/
structure Cue where
  start : Nat
  stop : Nat
  text : String
deriving Repr, DecidableEq

/-- Python `s.upper()` (character-wise uppercasing; ASCII-faithful). -/
def pyUpper (s : String) : String :=
  String.mk (s.toList.map Char.toUpper)

/-- The cue computation of `audio_service.generate_srt` (lines 23-29),
before serialization: cue i starts at word i, ends at word i+1 when one
exists and otherwise 400 ms after its own start, and displays the word
uppercased (`word['value'].upper()`). -/
def generate_srt_cues : List WordEvent → List Cue
  | [] => []
  | w :: rest =>
    let stop := match rest with
      | [] => w.time + 400
      | w2 :: _ => w2.time
    ⟨w.time, stop, pyUpper w.value⟩ :: generate_srt_cues rest

/-- Zero-pad a number to two digits, as Python renders minutes and
seconds inside `str(datetime.timedelta(...))`. -/
def pad2 (n : Nat) : String :=
  if n < 10 then "0" ++ toString n else toString n

/-- Zero-pad a number to six digits, as Python renders the microsecond
field of `str(datetime.timedelta(...))`. -/
def pad6 (n : Nat) : String :=
  let s := toString n
  String.mk (List.replicate (6 - s.length) '0') ++ s

/-- Python `str(datetime.timedelta(milliseconds=ms))` for a nonnegative
integer millisecond count: unpadded hours, padded minutes and seconds, a
6-digit fractional part only when the microseconds are nonzero, and a
day prefix when the duration reaches a day. -/
def pyTimedeltaStr (ms : Nat) : String :=
  let days := ms / 86400000
  let hrs := ms % 86400000 / 3600000
  let mins := ms % 3600000 / 60000
  let secs := ms % 60000 / 1000
  let micro := ms % 1000 * 1000
  let core := toString hrs ++ ":" ++ pad2 mins ++ ":" ++ pad2 secs ++
    (if micro == 0 then "" else "." ++ pad6 micro)
  if days == 0 then core
  else toString days ++ (if days == 1 then " day, " else " days, ") ++ core

/-- Python slicing `s[:-3]`: all characters but the last three (the
empty string when `s` has at most three characters). -/
def sliceDropLast3 (s : String) : String :=
  String.mk (s.toList.take (s.toList.length - 3))

/-- Python `s.replace('.', ',')`: every dot becomes a comma. -/
def replaceDotByComma (s : String) : String :=
  String.mk (s.toList.map fun c => if c == '.' then ',' else c)

/-- Python `s.startswith("0")`. -/
def startsWithZero (s : String) : Bool :=
  match s.toList with
  | [] => false
  | c :: _ => c == '0'

/-- The timestamp string `audio_service.generate_srt` writes for a cue
boundary at `ms` milliseconds: `str(timedelta(milliseconds=ms))[:-3]`,
`.` replaced by `,`, a conditional leading `0` (lines 24-25 / 27-28) and
the unconditional extra `0` the f-string on line 29 prepends. -/
def srtTimestamp (ms : Nat) : String :=
  let t := replaceDotByComma (sliceDropLast3 (pyTimedeltaStr ms))
  let t := if startsWithZero t then t else "0" ++ t
  "0" ++ t

/-- Whether a string is a well-formed `HH:MM:SS,mmm` SRT timestamp:
exactly 12 characters, digits everywhere except `:` at positions 2 and 5
and `,` at position 8. -/
def isSrtHHMMSSmmm (s : String) : Bool :=
  let cs := s.toList
  cs.length == 12 &&
  (List.range 12).all fun i =>
    let c := cs.getD i ' '
    if i == 2 || i == 5 then c == ':'
    else if i == 8 then c == ','
    else c.isDigit

/-- A row of the `video_jobs` table (`models.py`): identity, provenance,
the visual prompts of the generated script (`ai_script["visual_prompts"]`,
empty list standing for an absent script), asset paths, and the two stage
columns `status` (pending / scripted / voiced / completed) and
`image_status` (pending / completed / failed). -/
structure VideoJob where
  id : String
  title : String
  news_url : String
  news_source : String
  published_date : String
  content : String
  visual_prompts : List String
  audio_path : String
  status : String
  image_paths : List String
  image_status : String
deriving Repr, DecidableEq

/-- The render-stage claim predicate of `video_service.run_video_pipeline`
line 45: `VideoJob.status == "voiced" AND VideoJob.image_status ==
"completed"`. -/
def render_claim_pred (j : VideoJob) : Bool :=
  j.status == "voiced" && j.image_status == "completed"

/-- The render-stage claim query: `session.query(VideoJob).filter(...)
.first()` returns the first row satisfying the predicate, if any. -/
def render_claim (jobs : List VideoJob) : Option VideoJob :=
  jobs.find? render_claim_pred

/-- The path `image_service.run_image_pipeline` chooses for image `i`
(0-based): `assets/images/JOBID/sI.jpg` with `I = i + 1`. -/
def image_path_for (jobId : String) (i : Nat) : String :=
  "assets/images/" ++ jobId ++ "/s" ++ toString (i + 1) ++ ".jpg"

/-- The sequential image-generation loop of
`image_service.run_image_pipeline` lines 95-107: one `generate_image`
call per prompt, appending the path on success and breaking out of the
loop on the first failure.  `gen i` abstracts whether the external
generation of image `i` succeeds; `i` is the index of the first prompt
of `prompts` in the whole prompt list. -/
def image_loop (jobId : String) (gen : Nat → Bool) : List String → Nat → List String
  | [], _ => []
  | _ :: rest, i =>
    if gen i then image_path_for jobId i :: image_loop jobId gen rest (i + 1)
    else []

/-- The body of `image_service.run_image_pipeline` (lines 90-118) for
one claimed job: run the generation loop over the prompts of the job,
then either commit `image_paths` and `image_status = "completed"` in a
single update (when every prompt produced an image) or roll the session
back, leaving the row untouched. -/
def run_image_pipeline (job : VideoJob) (gen : Nat → Bool) : VideoJob :=
  let prompts := job.visual_prompts
  let saved := image_loop job.id gen prompts 0
  if saved.length == prompts.length then
    { job with image_paths := saved, image_status := "completed" }
  else job

/-- A structured news item as returned by
`news_service.fetch_india_positive_news`. -/
structure NewsItem where
  title : String
  description : String
  url : String
  source_name : String
  published_date : String
deriving Repr, DecidableEq

/-- The row `news_service.save_news_to_db` builds for a fresh item
(lines 117-124): content populated, `status = "pending"`, everything
else at the column defaults of `models.py`. -/
def mkNewsJob (item : NewsItem) : VideoJob :=
  { id := ""
    title := item.title
    news_url := item.url
    news_source := item.source_name
    published_date := item.published_date
    content := item.description
    visual_prompts := []
    audio_path := ""
    status := "pending"
    image_paths := []
    image_status := "pending" }

/-- The per-item loop of `news_service.save_news_to_db` (lines 112-129):
an item is queued for insertion only when no committed row has its URL
and the URL is truthy (nonempty).  The duplicate check
`session.query(VideoJob).filter(...)` reads the database, i.e. only
already committed rows (`autoflush=False` in `database.SessionLocal`),
never the rows queued earlier in the same batch. -/
def queue_fresh (committed : List VideoJob) : List NewsItem → List VideoJob
  | [] => []
  | item :: rest =>
    if committed.any (fun j => j.news_url == item.url) || item.url == "" then
      queue_fresh committed rest
    else
      mkNewsJob item :: queue_fresh committed rest

/-- The single `session.commit()` of `save_news_to_db` line 131 against
the unique index on `news_url` (`models.py` line 14): the transaction
either appends all queued rows or — on an `IntegrityError`, i.e. when
the resulting table would carry a duplicated URL — is rolled back whole
(lines 134-136), leaving the committed rows unchanged. -/
def commit_batch (committed pending : List VideoJob) : List VideoJob :=
  if ((committed ++ pending).map VideoJob.news_url).Nodup then committed ++ pending
  else committed

/-- The database effect of `news_service.save_news_to_db`: queue every
fresh-URL item of the fetched batch, then commit them in one
transaction.  There is no gatekeeper step: the stage names of the
committed rows are never consulted. -/
def save_news_to_db (committed : List VideoJob) (news_items : List NewsItem) : List VideoJob :=
  commit_batch committed (queue_fresh committed news_items)

/-- The request body of the manual-ingestion endpoint (`api.py`,
`ManualJobInput`), with the URL already rendered to a string. -/
structure ManualJobInput where
  title : String
  url : String
  source_name : String
  description : String
deriving Repr, DecidableEq

/-- The row `api.inject_manual_job` inserts (lines 56-62). -/
def mkManualJob (inp : ManualJobInput) : VideoJob :=
  { id := ""
    title := inp.title
    news_url := inp.url
    news_source := inp.source_name
    published_date := ""
    content := inp.description
    visual_prompts := []
    audio_path := ""
    status := "pending"
    image_paths := []
    image_status := "pending" }

/-- The database effect and HTTP status of `api.inject_manual_job`
(lines 49-68): when a committed row already carries the URL, raise
HTTP 400 and touch nothing; otherwise insert one pending row and commit,
answering 201. -/
def inject_manual_job (db : List VideoJob) (inp : ManualJobInput) :
    List VideoJob × Nat :=
  if db.any (fun j => j.news_url == inp.url) then (db, 400)
  else (db ++ [mkManualJob inp], 201)

/-- Python `int(q)` on a rational value: truncation toward zero. -/
def pyInt (q : ℚ) : ℤ :=
  if q < 0 then ⌈q⌉ else ⌊q⌋

/-- The frame count `video_service.create_ken_burns` requests on line 33
and passes to the zoompan `d=` parameter: `frames = int(dur * 24)`. -/
def create_ken_burns_frames (dur : ℚ) : ℤ :=
  pyInt (dur * 24)

/-- The zoom value of the even-scene zoompan expression
`min(zoom+0.0015,1.5)` (`video_service.create_ken_burns` line 34) after
`n` evaluations: zoompan starts its `zoom` state at 1 and feeds each
frame value into the next evaluation. -/
def even_zoom : Nat → ℚ
  | 0 => 1
  | n + 1 => min (even_zoom n + 3 / 2000) (3 / 2)

/-- The zoom value of the odd-scene zoompan expression
`max(1.5-0.0015*on,1)` (line 34) at output frame `n` (`on` is the
0-based output frame counter). -/
def odd_zoom (n : Nat) : ℚ :=
  max (3 / 2 - 3 / 2000 * n) 1

/-- The per-frame zoom factor `create_ken_burns` requests for scene
index `idx` at frame `n`, selected by the parity test `idx % 2 == 0` on
line 34. -/
def ken_burns_zoom (idx n : Nat) : ℚ :=
  if idx % 2 == 0 then even_zoom n else odd_zoom n

/-- Observable outcome of one stage process run: whether the in-flight
transaction was committed or rolled back, and the process exit status. -/
structure StageRun where
  committed : Bool
  rolled_back : Bool
  exit_code : Nat
deriving Repr, DecidableEq

/-- The control flow of `audio_service.run_audio_pipeline` around its
transaction (lines 31-59): on success the session is committed and the
script falls off the end of `main` (exit status 0); on any in-stage
exception the `except Exception` handler logs, rolls the session back
and returns normally, so the process still exits with status 0. -/
def audio_stage_run (failure : Bool) : StageRun :=
  if failure then { committed := false, rolled_back := true, exit_code := 0 }
  else { committed := true, rolled_back := false, exit_code := 0 }

/-- The control flow of `video_service.run_video_pipeline` around its
transaction (lines 40-128): on success commit and exit 0; on failure the
handler logs, rolls back and calls `sys.exit(1)` (line 125). -/
def video_stage_run (failure : Bool) : StageRun :=
  if failure then { committed := false, rolled_back := true, exit_code := 1 }
  else { committed := true, rolled_back := false, exit_code := 0 }

/-- A job as the script stage leaves it: scripted, four prompts,
images still pending. -/
def demo_scripted_job : VideoJob :=
  ⟨"job1", "Title", "http://example.com/a", "The Hindu", "2026-02-25",
   "Summary", ["p1", "p2", "p3", "p4"], "", "scripted", [], "pending"⟩

/-- A job that has finished the whole pipeline. -/
def demo_completed_job : VideoJob :=
  ⟨"job2", "Title", "http://example.com/b", "The Hindu", "2026-02-25",
   "Summary", ["p1", "p2", "p3", "p4"], "assets/audio/job2.mp3",
   "completed", ["i1", "i2", "i3", "i4"], "completed"⟩

/-- A freshly discovered job, still entirely pending: an in-flight job
in the sense of the gatekeeper clause. -/
def demo_inflight_job : VideoJob :=
  ⟨"job3", "Title", "http://example.com/old", "PTI", "2026-02-25",
   "Summary", [], "", "pending", [], "pending"⟩

/-- A fetched news item whose URL is not in the store yet. -/
def demo_fresh_item : NewsItem :=
  ⟨"Fresh story", "Summary", "http://example.com/new", "PTI", "2026-02-25"⟩

/-- A fetched news item that will occur twice in one batch. -/
def demo_dup_item : NewsItem :=
  ⟨"Dup story", "Summary", "http://example.com/dup", "PTI", "2026-02-25"⟩

/-- A second, unrelated fresh item for the same batch. -/
def demo_other_item : NewsItem :=
  ⟨"Other story", "Summary", "http://example.com/other", "ANI", "2026-02-25"⟩

/-- A manual-injection request duplicating `demo_inflight_job`. -/
def demo_manual_input : ManualJobInput :=
  ⟨"Manual", "http://example.com/old", "Manual Entry", "Summary"⟩

/-- An external world in which every image generation fails. -/
def demo_gen_fail : Nat → Bool := fun _ => false

/-- An external world in which image generations 0 and 1 succeed and
generation 2 exhausts its retries. -/
def demo_gen_two : Nat → Bool := fun i => i < 2

/-- An external world in which every image generation succeeds. -/
def demo_gen_ok : Nat → Bool := fun _ => true

lemma generate_srt_cues_nil : generate_srt_cues [] = [] := rfl

lemma generate_srt_cues_single (w : WordEvent) :
    generate_srt_cues [w] = [⟨w.time, w.time + 400, pyUpper w.value⟩] := rfl

lemma generate_srt_cues_cons2 (w w2 : WordEvent) (rest : List WordEvent) :
    generate_srt_cues (w :: w2 :: rest) =
      ⟨w.time, w2.time, pyUpper w.value⟩ :: generate_srt_cues (w2 :: rest) := rfl

lemma generate_srt_cues_length : ∀ ws : List WordEvent,
    (generate_srt_cues ws).length = ws.length
  | [] => rfl
  | [_] => rfl
  | w :: w2 :: rest => by
    rw [generate_srt_cues_cons2]
    simp [generate_srt_cues_length (w2 :: rest)]

lemma generate_srt_cues_start : ∀ (ws : List WordEvent) (i : Nat),
    ((generate_srt_cues ws)[i]?).map Cue.start = (ws[i]?).map WordEvent.time
  | [], _ => by simp [generate_srt_cues_nil]
  | [w], 0 => rfl
  | [w], (_ + 1) => by simp [generate_srt_cues_single]
  | w :: w2 :: rest, 0 => rfl
  | w :: w2 :: rest, (i + 1) => by
    rw [generate_srt_cues_cons2]
    simpa using generate_srt_cues_start (w2 :: rest) i

lemma generate_srt_cues_text : ∀ (ws : List WordEvent) (i : Nat),
    ((generate_srt_cues ws)[i]?).map Cue.text = (ws[i]?).map (fun w => pyUpper w.value)
  | [], _ => by simp [generate_srt_cues_nil]
  | [w], 0 => rfl
  | [w], (_ + 1) => by simp [generate_srt_cues_single]
  | w :: w2 :: rest, 0 => rfl
  | w :: w2 :: rest, (i + 1) => by
    rw [generate_srt_cues_cons2]
    simpa using generate_srt_cues_text (w2 :: rest) i

lemma generate_srt_cues_stop_mid : ∀ (ws : List WordEvent) (i : Nat), i + 1 < ws.length →
    ((generate_srt_cues ws)[i]?).map Cue.stop = (ws[i + 1]?).map WordEvent.time
  | [], i, h => by simp at h
  | [w], i, h => by simp at h
  | w :: w2 :: rest, 0, _ => by simp [generate_srt_cues_cons2]
  | w :: w2 :: rest, (i + 1), h => by
    rw [generate_srt_cues_cons2]
    have hrec := generate_srt_cues_stop_mid (w2 :: rest) i (by simpa using h)
    simpa using hrec

lemma generate_srt_cues_stop_last : ∀ (ws : List WordEvent) (i : Nat), i + 1 = ws.length →
    ((generate_srt_cues ws)[i]?).map Cue.stop = (ws[i]?).map (fun w => w.time + 400)
  | [], i, h => by simp at h
  | [w], 0, _ => rfl
  | [w], (i + 1), h => by simp at h
  | w :: w2 :: rest, 0, h => by simp at h
  | w :: w2 :: rest, (i + 1), h => by
    rw [generate_srt_cues_cons2]
    have hrec := generate_srt_cues_stop_last (w2 :: rest) i (by simpa using h)
    simpa using hrec

/-- C1: for every ordered word-event sequence the caption generator
produces exactly one cue per word; cue `i` starts at word `i`'s offset,
ends at word `i+1`'s offset when a next word exists and at its own
start plus 400 ms for the last word, displays the word uppercased, and
the empty sequence yields no cues. -/
theorem C1_caption_cue_timing (ws : List WordEvent) :
    (generate_srt_cues ws).length = ws.length ∧
    generate_srt_cues ([] : List WordEvent) = [] ∧
    (∀ i : Nat, ((generate_srt_cues ws)[i]?).map Cue.start = (ws[i]?).map WordEvent.time) ∧
    (∀ i : Nat, ((generate_srt_cues ws)[i]?).map Cue.text =
      (ws[i]?).map (fun w => pyUpper w.value)) ∧
    (∀ i : Nat, i + 1 < ws.length →
      ((generate_srt_cues ws)[i]?).map Cue.stop = (ws[i + 1]?).map WordEvent.time) ∧
    (∀ i : Nat, i + 1 = ws.length →
      ((generate_srt_cues ws)[i]?).map Cue.stop = (ws[i]?).map (fun w => w.time + 400)) :=
  ⟨generate_srt_cues_length ws, rfl,
   generate_srt_cues_start ws, generate_srt_cues_text ws,
   generate_srt_cues_stop_mid ws, generate_srt_cues_stop_last ws⟩

/-- Witness for C1 on the three-word narration of the end-to-end
scenario: offsets 0, 500, 1000 ms. -/
theorem C1_caption_cue_timing_witness :
    (generate_srt_cues [⟨0, "one"⟩, ⟨500, "two"⟩, ⟨1000, "three"⟩]).length = 3 ∧
    ((generate_srt_cues [⟨0, "one"⟩, ⟨500, "two"⟩, ⟨1000, "three"⟩])[0]?).map Cue.stop =
      some 500 ∧
    ((generate_srt_cues [⟨0, "one"⟩, ⟨500, "two"⟩, ⟨1000, "three"⟩])[2]?).map Cue.stop =
      some 1400 ∧
    ((generate_srt_cues [⟨0, "one"⟩, ⟨500, "two"⟩, ⟨1000, "three"⟩])[1]?).map Cue.text =
      some "TWO" := by
  have h := C1_caption_cue_timing [⟨0, "one"⟩, ⟨500, "two"⟩, ⟨1000, "three"⟩]
  refine ⟨h.1, ?_, ?_, ?_⟩
  · have := h.2.2.2.2.1 0 (by decide)
    simpa using this
  · have := h.2.2.2.2.2 2 (by decide)
    simpa using this
  · have := h.2.2.2.1 1
    rw [this]
    decide

/-- C2: the render stage claims a job only when both stage markers are
at their ready values; any job whose script stage is not `voiced` — in
particular a `completed` one — is never selected, and a store of only
completed jobs yields no claim. -/
theorem C2_render_claim_dual_gate :
    (∀ (jobs : List VideoJob) (j : VideoJob), render_claim jobs = some j →
      j.status = "voiced" ∧ j.image_status = "completed") ∧
    (∀ (jobs : List VideoJob) (j : VideoJob), j.status ≠ "voiced" →
      render_claim jobs ≠ some j) ∧
    (∀ jobs : List VideoJob, (∀ j ∈ jobs, j.status = "completed") →
      render_claim jobs = none) := by
  have hpred : ∀ j : VideoJob, render_claim_pred j = true →
      j.status = "voiced" ∧ j.image_status = "completed" := by
    intro j hj
    simpa [render_claim_pred] using hj
  refine ⟨?_, ?_, ?_⟩
  · intro jobs j h
    exact hpred j (List.find?_some h)
  · intro jobs j hne h
    exact hne (hpred j (List.find?_some h)).1
  · intro jobs hall
    rw [render_claim, List.find?_eq_none]
    intro j hj
    have hst := hall j hj
    simp [render_claim_pred, hst]

/-- Witness for C2: a store holding one fully completed job is not
claimed again by the render stage. -/
theorem C2_render_claim_dual_gate_witness :
    render_claim [demo_completed_job] = none ∧
    demo_completed_job.status = "completed" := by
  refine ⟨C2_render_claim_dual_gate.2.2 [demo_completed_job] ?_, rfl⟩
  intro j hj
  simp only [List.mem_singleton] at hj
  subst hj
  rfl

/-- Helper: the image loop never yields more paths than prompts. -/
lemma image_loop_length_le (jobId : String) (gen : Nat → Bool) :
    ∀ (prompts : List String) (i : Nat),
      (image_loop jobId gen prompts i).length ≤ prompts.length
  | [], _ => by simp [image_loop]
  | _ :: rest, i => by
    rw [image_loop]
    split
    · simpa using image_loop_length_le jobId gen rest (i + 1)
    · simp

/-- C3: the image stage commits atomically — after a run, the row reads
`image_status = "completed"` only with exactly four image paths
committed in the same update, and when fewer images were produced than
prompts requested the row is left exactly at its prior values. -/
theorem C3_image_stage_atomic (job : VideoJob) (gen : Nat → Bool)
    (h4 : job.visual_prompts.length = 4)
    (hpend : job.image_status = "pending") :
    ((run_image_pipeline job gen).image_status = "completed" →
      (run_image_pipeline job gen).image_paths.length = 4) ∧
    ((image_loop job.id gen job.visual_prompts 0).length < job.visual_prompts.length →
      run_image_pipeline job gen = job ∧
      (run_image_pipeline job gen).image_status ≠ "completed") := by
  unfold run_image_pipeline
  by_cases hc :
      (image_loop job.id gen job.visual_prompts 0).length = job.visual_prompts.length
  · rw [if_pos (by simpa using hc)]
    constructor
    · intro _
      simpa using hc.trans h4
    · intro hlt
      omega
  · rw [if_neg (by simpa using hc)]
    constructor
    · intro hcontra
      rw [hpend] at hcontra
      simp at hcontra
    · intro _
      refine ⟨rfl, ?_⟩
      rw [hpend]
      decide

/-- Witness for C3: on the demo scripted job, a run in which the third
generation fails commits nothing and leaves the row unchanged. -/
theorem C3_image_stage_atomic_witness :
    run_image_pipeline demo_scripted_job demo_gen_two = demo_scripted_job ∧
    (run_image_pipeline demo_scripted_job demo_gen_two).image_status ≠ "completed" :=
  (C3_image_stage_atomic demo_scripted_job demo_gen_two (by decide) (by decide)).2
    (by decide)

/-- Counterexample to C4 as stated: at a 0.9-second scene the code
requests `int(0.9 * 24) = 21` frames while `round(0.9 * 24) = 22`. -/
theorem C4_counterexample_trunc_is_not_round :
    create_ken_burns_frames (9 / 10) = 21 ∧
    round ((9 / 10 : ℚ) * 24) = 22 ∧
    create_ken_burns_frames (9 / 10) ≠ round ((9 / 10 : ℚ) * 24) := by
  have heq : ((9 : ℚ) / 10) * 24 = 108 / 5 := by norm_num
  have h1 : create_ken_burns_frames (9 / 10) = 21 := by
    rw [create_ken_burns_frames, pyInt, if_neg (by norm_num), heq]
    rw [Int.floor_eq_iff]
    norm_num
  have h2 : round ((9 / 10 : ℚ) * 24) = 22 := by
    rw [heq, round_eq, show (108 : ℚ) / 5 + 1 / 2 = 221 / 10 by norm_num]
    rw [Int.floor_eq_iff]
    norm_num
  exact ⟨h1, h2, by rw [h1, h2]; decide⟩

/-- C4 amended: the scene animator requests exactly `⌊d * 24⌋` frames
(truncation toward zero of `d * 24`, Python `int`), characterized by the
floor inequalities; a 2.3-second scene still yields 55 frames. -/
theorem C4_frame_count_truncates (dur : ℚ) (h : 0 ≤ dur) :
    create_ken_burns_frames dur = ⌊dur * 24⌋ ∧
    (create_ken_burns_frames dur : ℚ) ≤ dur * 24 ∧
    dur * 24 < (create_ken_burns_frames dur : ℚ) + 1 ∧
    create_ken_burns_frames (23 / 10) = 55 := by
  have hfl : create_ken_burns_frames dur = ⌊dur * 24⌋ := by
    rw [create_ken_burns_frames, pyInt, if_neg]
    push_neg
    positivity
  refine ⟨hfl, ?_, ?_, ?_⟩
  · rw [hfl]
    exact Int.floor_le _
  · rw [hfl]
    exact Int.lt_floor_add_one _
  · have heq : ((23 : ℚ) / 10) * 24 = 276 / 5 := by norm_num
    rw [create_ken_burns_frames, pyInt, if_neg (by norm_num), heq]
    rw [Int.floor_eq_iff]
    norm_num

/-- Witness for C4 amended at the spec example duration 2.3 s. -/
theorem C4_frame_count_truncates_witness :
    create_ken_burns_frames (23 / 10) = 55 ∧
    create_ken_burns_frames (23 / 10) = ⌊((23 : ℚ) / 10) * 24⌋ :=
  ⟨(C4_frame_count_truncates (23 / 10) (by norm_num)).2.2.2,
   (C4_frame_count_truncates (23 / 10) (by norm_num)).1⟩

lemma even_zoom_le (n : Nat) : even_zoom n ≤ 3 / 2 := by
  cases n with
  | zero => norm_num [even_zoom]
  | succ n =>
    rw [even_zoom]
    exact min_le_right _ _

lemma even_zoom_ge_one : ∀ n : Nat, (1 : ℚ) ≤ even_zoom n
  | 0 => le_refl 1
  | n + 1 => by
    rw [even_zoom]
    refine le_min ?_ (by norm_num)
    have := even_zoom_ge_one n
    linarith

lemma even_zoom_mono : Monotone even_zoom :=
  monotone_nat_of_le_succ fun n => by
    rw [even_zoom]
    exact le_min (by linarith) (even_zoom_le n)

lemma odd_zoom_ge_one (n : Nat) : (1 : ℚ) ≤ odd_zoom n :=
  le_max_right _ _

lemma odd_zoom_le (n : Nat) : odd_zoom n ≤ 3 / 2 := by
  rw [odd_zoom]
  refine max_le ?_ (by norm_num)
  have h : (0 : ℚ) ≤ 3 / 2000 * n := by positivity
  linarith

lemma odd_zoom_anti : Antitone odd_zoom := by
  intro n m hnm
  have hc : (n : ℚ) ≤ m := by exact_mod_cast hnm
  have hmul : (3 : ℚ) / 2000 * n ≤ 3 / 2000 * m :=
    mul_le_mul_of_nonneg_left hc (by norm_num)
  exact max_le_max (by linarith) (le_refl 1)

/-- C5: the per-frame zoom factor stays within `[1, 1.5]` at every frame
of every scene, increases monotonically for even scene indices and
decreases monotonically for odd scene indices. -/
theorem C5_zoom_monotone_within_bounds :
    (∀ idx n : Nat, 1 ≤ ken_burns_zoom idx n ∧ ken_burns_zoom idx n ≤ 3 / 2) ∧
    (∀ idx n m : Nat, idx % 2 = 0 → n ≤ m →
      ken_burns_zoom idx n ≤ ken_burns_zoom idx m) ∧
    (∀ idx n m : Nat, idx % 2 = 1 → n ≤ m →
      ken_burns_zoom idx m ≤ ken_burns_zoom idx n) := by
  refine ⟨?_, ?_, ?_⟩
  · intro idx n
    rw [ken_burns_zoom]
    split
    · exact ⟨even_zoom_ge_one n, even_zoom_le n⟩
    · exact ⟨odd_zoom_ge_one n, odd_zoom_le n⟩
  · intro idx n m h0 hnm
    simp only [ken_burns_zoom, h0]
    simpa using even_zoom_mono hnm
  · intro idx n m h1 hnm
    simp only [ken_burns_zoom, h1]
    simpa using odd_zoom_anti hnm

/-- Witness for C5 at concrete scene indices and frames: scene 0 zooms
in between frames 10 and 20, scene 1 zooms out, and scenes 2 and 3 stay
within the bounds at frame 7. -/
theorem C5_zoom_monotone_within_bounds_witness :
    ken_burns_zoom 0 10 ≤ ken_burns_zoom 0 20 ∧
    ken_burns_zoom 1 20 ≤ ken_burns_zoom 1 10 ∧
    1 ≤ ken_burns_zoom 2 7 ∧
    ken_burns_zoom 3 7 ≤ 3 / 2 :=
  ⟨C5_zoom_monotone_within_bounds.2.1 0 10 20 (by decide) (by decide),
   C5_zoom_monotone_within_bounds.2.2 1 10 20 (by decide) (by decide),
   (C5_zoom_monotone_within_bounds.1 2 7).1,
   (C5_zoom_monotone_within_bounds.1 3 7).2⟩

/-- C6: the serializer fails its format contract on whole-second
offsets.  Python `str(timedelta)` omits the fractional part when the
microseconds are zero, so the slice `[:-3]` then eats the seconds field:
offsets 0 ms and 1000 ms are rendered as the malformed `00:00` instead
of `00:00:00,000` and `00:00:01,000`, while sub-second offsets such as
500 ms are rendered correctly. -/
theorem C6_whole_second_timestamps_malformed :
    srtTimestamp 0 = "00:00" ∧
    isSrtHHMMSSmmm (srtTimestamp 0) = false ∧
    srtTimestamp 1000 = "00:00" ∧
    srtTimestamp 500 = "00:00:00,500" ∧
    isSrtHHMMSSmmm (srtTimestamp 500) = true := by
  refine ⟨by decide, by decide, by decide, by decide, by decide⟩

/-- C7: inserting a job under a URL already present is rejected without
side effects, by the manual ingestion endpoint (HTTP 400, store
untouched) and by the discovery stage (item skipped, store
untouched). -/
theorem C7_duplicate_url_rejected :
    (∀ (db : List VideoJob) (inp : ManualJobInput),
      (∃ j ∈ db, j.news_url = inp.url) →
      inject_manual_job db inp = (db, 400)) ∧
    (∀ (committed : List VideoJob) (item : NewsItem),
      (∃ j ∈ committed, j.news_url = item.url) →
      save_news_to_db committed [item] = committed) := by
  constructor
  · intro db inp hdup
    rw [inject_manual_job, if_pos]
    rw [List.any_eq_true]
    obtain ⟨j, hj, hurl⟩ := hdup
    exact ⟨j, hj, by simp [hurl]⟩
  · intro committed item hdup
    have hq : queue_fresh committed [item] = [] := by
      rw [queue_fresh, if_pos]
      · rfl
      · rw [Bool.or_eq_true, List.any_eq_true]
        obtain ⟨j, hj, hurl⟩ := hdup
        exact Or.inl ⟨j, hj, by simp [hurl]⟩
    rw [save_news_to_db, hq, commit_batch, List.append_nil, ite_self]

/-- Witness for C7: a request duplicating the in-flight demo job is
answered with HTTP 400 and both stores are unchanged. -/
theorem C7_duplicate_url_rejected_witness :
    inject_manual_job [demo_inflight_job] demo_manual_input =
      ([demo_inflight_job], 400) ∧
    save_news_to_db [demo_inflight_job]
      [⟨"T", "D", "http://example.com/old", "S", "2026-02-25"⟩] =
      [demo_inflight_job] :=
  ⟨C7_duplicate_url_rejected.1 [demo_inflight_job] demo_manual_input
    ⟨demo_inflight_job, by decide, by decide⟩,
   C7_duplicate_url_rejected.2 [demo_inflight_job]
    ⟨"T", "D", "http://example.com/old", "S", "2026-02-25"⟩
    ⟨demo_inflight_job, by decide, by decide⟩⟩

/-- Counterexample to C8 as stated: with one entirely pending job in the
store — an in-flight job in the gatekeeper sense — the discovery stage
still inserts a freshly fetched item; no gatekeeper check exists in
`save_news_to_db`. -/
theorem C8_counterexample_no_gatekeeper :
    demo_inflight_job.status ≠ "completed" ∧
    save_news_to_db [demo_inflight_job] [demo_fresh_item] =
      [demo_inflight_job, mkNewsJob demo_fresh_item] ∧
    save_news_to_db [demo_inflight_job] [demo_fresh_item] ≠ [demo_inflight_job] := by
  refine ⟨by decide, by decide, by decide⟩

/-- C8 amended: the discovery stage performs no gatekeeper check — even
while a job with a non-completed script stage or image stage exists, a
fetched item with a fresh nonempty URL is inserted; only duplicate or
empty URLs are skipped. -/
theorem C8_discovery_ignores_inflight_jobs
    (committed : List VideoJob) (item : NewsItem)
    (_hin : ∃ j ∈ committed, j.status ≠ "completed" ∨ j.image_status ≠ "completed")
    (hurl : item.url ≠ "")
    (hfresh : ∀ j ∈ committed, j.news_url ≠ item.url)
    (hnodup : (committed.map VideoJob.news_url).Nodup) :
    save_news_to_db committed [item] = committed ++ [mkNewsJob item] := by
  have hany : (committed.any fun j => j.news_url == item.url) = false := by
    rw [List.any_eq_false]
    intro j hj
    simpa using hfresh j hj
  have hne : (item.url == "") = false := by
    simpa using hurl
  have hq : queue_fresh committed [item] = [mkNewsJob item] := by
    rw [queue_fresh, hany, hne]
    simp [queue_fresh]
  rw [save_news_to_db, hq, commit_batch, if_pos]
  rw [List.map_append, List.nodup_append]
  refine ⟨hnodup, by simp, ?_⟩
  intro u hu
  simp only [List.map_cons, List.map_nil, List.mem_singleton]
  intro hmem
  obtain ⟨j, hj, hje⟩ := List.mem_map.mp hu
  subst hmem
  exact hfresh j hj hje

/-- Witness for C8 amended: the fresh demo item is inserted although the
pending demo job is still in flight. -/
theorem C8_discovery_ignores_inflight_jobs_witness :
    save_news_to_db [demo_inflight_job] [demo_fresh_item] =
      [demo_inflight_job] ++ [mkNewsJob demo_fresh_item] :=
  C8_discovery_ignores_inflight_jobs [demo_inflight_job] demo_fresh_item
    ⟨demo_inflight_job, by decide, by decide⟩
    (by decide)
    (by intro j hj; simp only [List.mem_singleton] at hj; subst hj; decide)
    (by decide)

/-- C9: the audio stage contradicts the failure contract — its
`except Exception` handler (audio_service.py lines 55-57) rolls the
transaction back but returns normally, so the process exits with status
0 and `pipeline_manager`'s `proc_audio.returncode != 0` check can never
observe the failure; only the render stage both rolls back and exits
non-zero (video_service.py lines 122-125). -/
theorem C9_audio_stage_exits_zero_on_failure :
    (audio_stage_run true).rolled_back = true ∧
    (audio_stage_run true).committed = false ∧
    (audio_stage_run true).exit_code = 0 ∧
    (video_stage_run true).rolled_back = true ∧
    (video_stage_run true).exit_code = 1 := by
  refine ⟨by decide, by decide, by decide, by decide, by decide⟩

/-- Helper: when no committed row carries the URL `u` and `u` is
nonempty, the queued batch carries `u` exactly as often as the fetched
items do — the per-item duplicate check reads only committed rows and
never the rows queued earlier in the same batch. -/
lemma queue_fresh_count (committed : List VideoJob) (u : String)
    (hu : u ≠ "") (hfresh : ∀ j ∈ committed, j.news_url ≠ u) :
    ∀ items : List NewsItem,
      ((queue_fresh committed items).map VideoJob.news_url).count u
        = (items.map NewsItem.url).count u
  | [] => by simp [queue_fresh]
  | item :: rest => by
    have ih := queue_fresh_count committed u hu hfresh rest
    rw [queue_fresh]
    split
    · rename_i hcond
      have hne : item.url ≠ u := by
        intro he
        rw [Bool.or_eq_true] at hcond
        rcases hcond with h | h
        · rw [List.any_eq_true] at h
          obtain ⟨j, hj, hbeq⟩ := h
          exact hfresh j hj (by simpa [he] using hbeq)
        · exact hu (by simpa [he] using h)
      rw [ih]
      simp [List.count_cons, hne]
    · simp only [List.map_cons, List.count_cons]
      rw [ih]
      simp [mkNewsJob]

/-- C10: discovery-batch insertion is all-or-nothing — when a fetched
batch carries the same fresh nonempty URL twice, the per-item check
(which sees only committed rows) lets both through, the single commit
violates the unique index, and the rollback leaves the store exactly as
it was: zero jobs from the batch are inserted, the non-duplicate items
included. -/
theorem C10_batch_commit_all_or_nothing (committed : List VideoJob)
    (items : List NewsItem) (u : String)
    (hu : u ≠ "")
    (hfresh : ∀ j ∈ committed, j.news_url ≠ u)
    (hdup : 2 ≤ (items.map NewsItem.url).count u) :
    save_news_to_db committed items = committed := by
  rw [save_news_to_db, commit_batch, if_neg]
  intro hnd
  rw [List.map_append] at hnd
  have h2 := List.Nodup.of_append_right hnd
  have hle := List.nodup_iff_count_le_one.mp h2 u
  have hcnt := queue_fresh_count committed u hu hfresh items
  omega

/-- Witness for C10: a batch holding the duplicate item twice around an
unrelated fresh item inserts nothing at all into an empty store. -/
theorem C10_batch_commit_all_or_nothing_witness :
    save_news_to_db [] [demo_dup_item, demo_other_item, demo_dup_item] = [] :=
  C10_batch_commit_all_or_nothing [] [demo_dup_item, demo_other_item, demo_dup_item]
    "http://example.com/dup" (by decide)
    (by intro j hj; simp at hj) (by decide)

end ShortsGenerator
